import Mathlib

/-!
Verification of `returnn/torch/data/returnn_dataset_wrapper.py`.

The file under scrutiny adapts a RETURNN dataset (an opaque external
collaborator) into the iteration protocols of a PyTorch training pipeline:
one lazily-iterated stream wrapper (`IterableDatasetWrapper`) and two
map-style wrappers (`MapStyleDatasetPerEpochWrapper`,
`MapStyleDatasetFullWrapper`).

Embedding conventions:
- The wrapped dataset is a record of its externally visible methods.  Every
  method that can raise returns `Except ε`, where `ε` is the opaque type of
  exceptions the dataset may raise; `α` is the opaque type of data values
  (numpy arrays in the Python code).
- A Python dict keyed by strings is an association list `List (String × α)`
  in key-insertion order.
- Wrapper objects carry their two attributes; for the two map-style classes
  the attributes are wrapped in `Option`, where `none` means the attribute
  was never set on the instance (Python would raise `AttributeError`).
- Wrapper methods return `Except (PyErr ε)`; on success they also return the
  post-state of the object, making frame conditions statable.
- The generator `IterableDatasetWrapper.__iter__` runs a while-loop with no
  termination guarantee, so it is embedded with explicit fuel; it produces a
  trace of the calls made into the dataset and of the yielded items, which
  makes the temporal ordering of `load_seqs` and `get_data` calls provable.
- Python object construction `Cls(args)` invokes the method bound to the
  name `__init__` when the class defines one; otherwise `object.__init__`
  handles the call and rejects any extra argument with a `TypeError`.  Each
  class is given the list of method names it defines, and `construct` is
  driven by whether that list binds `__init__`.
-/

/-- A sequence as returned by `Dataset.get_corpus_seq` (a RETURNN DatasetSeq);
the wrappers only use its `features` dict. -/
structure DatasetSeq (α : Type) where
  features : List (String × α)

/-- The externally-owned RETURNN dataset, as the record of the methods the
wrappers call.  `α` is the type of data values, `ε` the type of exceptions a
dataset call may raise.  Methods are opaque: each is an arbitrary field. -/
structure Dataset (α ε : Type) where
  get_data_keys : Except ε (List String)
  is_less_than_num_seqs : Nat → Except ε Bool
  load_seqs : Nat → Nat → Except ε Unit
  get_data : Nat → String → Except ε α
  num_seqs : Except ε Nat
  get_total_num_seqs : Except ε Nat
  have_corpus_seq_idx : Bool
  have_get_corpus_seq : Bool
  get_corpus_seq_idx : Nat → Except ε Nat
  get_corpus_seq : Nat → Except ε (DatasetSeq α)

/-- The reset-callback type (`ResetCallbackT` in the source): a callable
taking the wrapped dataset; it may raise. -/
abbrev ResetCallbackT (α ε : Type) : Type := Dataset α ε → Except ε Unit

/-- Exceptions observable at the wrapper level: Python-level failures plus
any exception `e : ε` raised by a dataset call or the reset callback and
propagated as-is (constructor `raised`). -/
inductive PyErr (ε : Type) where
  | typeError
  | attributeError
  | assertionError
  | exception (msg : String)
  | raised (e : ε)
deriving DecidableEq

/-- One call made into the wrapped dataset during iteration. -/
inductive DsCall where
  | get_data_keys
  | is_less_than_num_seqs (i : Nat)
  | load_seqs (a b : Nat)
  | get_data (i : Nat) (key : String)
deriving DecidableEq

/-- An event of the iteration trace: a dataset call, or a yielded item. -/
inductive IterEvent (α : Type) where
  | call (c : DsCall)
  | yielded (item : List (String × α))

/-- How a run of the generator ended: the while-condition became false
(`finished`), a dataset call raised (`errored`), or the fuel ran out while
the loop was still going (`outOfFuel`). -/
inductive IterOutcome (ε : Type) where
  | finished
  | errored (e : ε)
  | outOfFuel
deriving DecidableEq

/-- The dict comprehension on source line 46:
`{data_key: self._dataset.get_data(seq_index, data_key) for data_key in data_keys}`.
Returns the trace of `get_data` calls and either the dict or the first
exception raised. -/
def buildDict (d : Dataset α ε) (i : Nat) : List String → List (IterEvent α) × Except ε (List (String × α))
  | [] => ([], .ok [])
  | k :: ks =>
    match d.get_data i k with
    | .error e => ([.call (.get_data i k)], .error e)
    | .ok v =>
      match buildDict d i ks with
      | (tr, .error e) => (.call (.get_data i k) :: tr, .error e)
      | (tr, .ok rest) => (.call (.get_data i k) :: tr, .ok ((k, v) :: rest))

/-- The while-loop of `IterableDatasetWrapper.__iter__` (source lines 43-48),
running from sequence index `i` with the given fuel.  Produces the trace of
dataset calls and yields, and the outcome. -/
def iterLoop (d : Dataset α ε) (keys : List String) : Nat → Nat → List (IterEvent α) × IterOutcome ε
  | 0, _ => ([], .outOfFuel)
  | fuel + 1, i =>
    match d.is_less_than_num_seqs i with
    | .error e => ([.call (.is_less_than_num_seqs i)], .errored e)
    | .ok false => ([.call (.is_less_than_num_seqs i)], .finished)
    | .ok true =>
      match d.load_seqs i (i + 1) with
      | .error e => ([.call (.is_less_than_num_seqs i), .call (.load_seqs i (i + 1))], .errored e)
      | .ok _ =>
        match buildDict d i keys with
        | (dtr, .error e) =>
          (.call (.is_less_than_num_seqs i) :: .call (.load_seqs i (i + 1)) :: dtr, .errored e)
        | (dtr, .ok item) =>
          match iterLoop d keys fuel (i + 1) with
          | (tr, out) =>
            (.call (.is_less_than_num_seqs i) :: .call (.load_seqs i (i + 1)) ::
              (dtr ++ .yielded item :: tr), out)

/-- A full run of the generator body of `IterableDatasetWrapper.__iter__`
(source lines 36-48): fetch `get_data_keys` once, then run the loop from
sequence index 0. -/
def iterRun (d : Dataset α ε) (fuel : Nat) : List (IterEvent α) × IterOutcome ε :=
  match d.get_data_keys with
  | .error e => ([.call .get_data_keys], .errored e)
  | .ok keys =>
    match iterLoop d keys fuel 0 with
    | (tr, out) => (.call .get_data_keys :: tr, out)

/-- The items yielded along a trace, in order. -/
def yields (tr : List (IterEvent α)) : List (List (String × α)) :=
  tr.filterMap fun e =>
    match e with
    | .yielded item => some item
    | .call _ => none

/-- The first components of the `load_seqs` calls along a trace, in order. -/
def loadCalls (tr : List (IterEvent α)) : List Nat :=
  tr.filterMap fun e =>
    match e with
    | .call (.load_seqs a _) => some a
    | _ => none

/-- `loadedBeforeRead tr L = true` iff along `tr`, every `get_data i _` call
happens only when a `load_seqs i _` call already occurred earlier in the
trace (or `i` was in the initially-loaded list `L`). -/
def loadedBeforeRead : List (IterEvent α) → List Nat → Bool
  | [], _ => true
  | .call (.load_seqs a _) :: tl, L => loadedBeforeRead tl (a :: L)
  | .call (.get_data i _) :: tl, L => L.contains i && loadedBeforeRead tl L
  | _ :: tl, L => loadedBeforeRead tl L

/-- An instance of `IterableDatasetWrapper`: its `__init__` (source lines
21-27) is well-formed, so both attributes are always set. -/
structure IterObj (α ε : Type) where
  _dataset : Dataset α ε
  _reset_callback : Option (ResetCallbackT α ε)

/-- An instance of one of the two map-style wrapper classes.  Because their
initializer is never run by construction (see `methodNames` below), an
attribute may be unset, which `none` encodes. -/
structure MapObj (α ε : Type) where
  _dataset : Option (Dataset α ε)
  _reset_callback : Option (Option (ResetCallbackT α ε))

namespace IterableDatasetWrapper

/-- The method names class `IterableDatasetWrapper` defines (source lines
16-51).  It defines a proper `__init__`. -/
def methodNames : List String := ["__init__", "reset", "__iter__", "__getitem__"]

/-- Python construction `IterableDatasetWrapper(dataset, reset_callback=cb)`:
the class binds `__init__` (source line 21), whose body sets the two
attributes, so construction succeeds with both attributes set. -/
def construct (d : Dataset α ε) (cb : Option (ResetCallbackT α ε)) : Except (PyErr ε) (IterObj α ε) :=
  if methodNames.contains "__init__" then .ok ⟨d, cb⟩ else .error .typeError

/-- `IterableDatasetWrapper.reset` (source lines 29-34): if a reset callback
was supplied, call it on the wrapped dataset.  On success, returns the list
of callback invocations (each recorded by the argument passed) and the
post-state of the object. -/
def reset (self : IterObj α ε) : Except (PyErr ε) (List (Dataset α ε) × IterObj α ε) :=
  match self._reset_callback with
  | none => .ok ([], self)
  | some cb =>
    match cb self._dataset with
    | .error e => .error (.raised e)
    | .ok _ => .ok ([self._dataset], self)

/-- `IterableDatasetWrapper.__iter__` (source lines 36-48), with fuel for
the while-loop; returns the run of the generator and the post-state of the
object. -/
def __iter__ (self : IterObj α ε) (fuel : Nat) : (List (IterEvent α) × IterOutcome ε) × IterObj α ε :=
  (iterRun self._dataset fuel, self)

/-- `IterableDatasetWrapper.__getitem__` (source lines 50-51): raises
unconditionally. -/
def __getitem__ (self : IterObj α ε) (index : Nat) : Except (PyErr ε) (List (String × α) × IterObj α ε) :=
  .error (.exception "IterableDatasetWrapper.__getitem__ not supported")

end IterableDatasetWrapper

namespace MapStyleDatasetPerEpochWrapper

/-- The method names class `MapStyleDatasetPerEpochWrapper` defines (source
lines 54-90).  Note the initializer written on line 59 is literally named
`__int__`, so the list does not bind `__init__`. -/
def methodNames : List String := ["__int__", "reset", "__len__", "__getitem__"]

/-- Body of the method literally named `__int__` in the source (lines 59-66):
assert both capabilities, then set the two attributes.  Construction never
invokes it, because the name is not `__init__`. -/
def __int__ (d : Dataset α ε) (cb : Option (ResetCallbackT α ε)) : Except (PyErr ε) (MapObj α ε) :=
  if d.have_corpus_seq_idx && d.have_get_corpus_seq then .ok ⟨some d, some cb⟩
  else .error .assertionError

/-- Python construction `MapStyleDatasetPerEpochWrapper(dataset, reset_callback=cb)`:
the initializer body is invoked only when bound to the name `__init__`,
which this class does not bind; `object.__init__` then rejects the extra
arguments with a `TypeError`. -/
def construct (d : Dataset α ε) (cb : Option (ResetCallbackT α ε)) : Except (PyErr ε) (MapObj α ε) :=
  if methodNames.contains "__init__" then __int__ d cb else .error .typeError

/-- Python construction `MapStyleDatasetPerEpochWrapper()` with no argument:
no `__init__` is bound (a bound `__init__` would require the dataset
argument and raise a `TypeError` here), so `object.__init__` succeeds and
the instance has neither attribute set. -/
def constructNoArgs : Except (PyErr ε) (MapObj α ε) :=
  if methodNames.contains "__init__" then .error .typeError else .ok ⟨none, none⟩

/-- `MapStyleDatasetPerEpochWrapper.reset` (source lines 68-73).  Reading an
unset attribute raises `AttributeError`; the callback invocations made are
returned on success along with the post-state. -/
def reset (self : MapObj α ε) : Except (PyErr ε) (List (Dataset α ε) × MapObj α ε) :=
  match self._reset_callback with
  | none => .error .attributeError
  | some none => .ok ([], self)
  | some (some cb) =>
    match self._dataset with
    | none => .error .attributeError
    | some d =>
      match cb d with
      | .error e => .error (.raised e)
      | .ok _ => .ok ([d], self)

/-- `MapStyleDatasetPerEpochWrapper.__len__` (source lines 75-80):
`return self._dataset.num_seqs`. -/
def __len__ (self : MapObj α ε) : Except (PyErr ε) (Nat × MapObj α ε) :=
  match self._dataset with
  | none => .error .attributeError
  | some d =>
    match d.num_seqs with
    | .error e => .error (.raised e)
    | .ok n => .ok (n, self)

/-- `MapStyleDatasetPerEpochWrapper.__getitem__` (source lines 82-90):
map the index through `get_corpus_seq_idx`, fetch the sequence with
`get_corpus_seq`, return its features. -/
def __getitem__ (self : MapObj α ε) (index : Nat) : Except (PyErr ε) (List (String × α) × MapObj α ε) :=
  match self._dataset with
  | none => .error .attributeError
  | some d =>
    match d.get_corpus_seq_idx index with
    | .error e => .error (.raised e)
    | .ok c =>
      match d.get_corpus_seq c with
      | .error e => .error (.raised e)
      | .ok s => .ok (s.features, self)

end MapStyleDatasetPerEpochWrapper

namespace MapStyleDatasetFullWrapper

/-- The method names class `MapStyleDatasetFullWrapper` defines (source
lines 93-128).  The initializer on line 98 is again literally named
`__int__`. -/
def methodNames : List String := ["__int__", "reset", "__len__", "__getitem__"]

/-- Body of the method literally named `__int__` in the source (lines
98-105): assert `have_get_corpus_seq`, then set the two attributes.
Construction never invokes it. -/
def __int__ (d : Dataset α ε) (cb : Option (ResetCallbackT α ε)) : Except (PyErr ε) (MapObj α ε) :=
  if d.have_get_corpus_seq then .ok ⟨some d, some cb⟩
  else .error .assertionError

/-- Python construction `MapStyleDatasetFullWrapper(dataset, reset_callback=cb)`:
no `__init__` is bound, so `object.__init__` rejects the extra arguments. -/
def construct (d : Dataset α ε) (cb : Option (ResetCallbackT α ε)) : Except (PyErr ε) (MapObj α ε) :=
  if methodNames.contains "__init__" then __int__ d cb else .error .typeError

/-- Python construction `MapStyleDatasetFullWrapper()` with no argument:
succeeds with neither attribute set. -/
def constructNoArgs : Except (PyErr ε) (MapObj α ε) :=
  if methodNames.contains "__init__" then .error .typeError else .ok ⟨none, none⟩

/-- `MapStyleDatasetFullWrapper.reset` (source lines 107-112). -/
def reset (self : MapObj α ε) : Except (PyErr ε) (List (Dataset α ε) × MapObj α ε) :=
  match self._reset_callback with
  | none => .error .attributeError
  | some none => .ok ([], self)
  | some (some cb) =>
    match self._dataset with
    | none => .error .attributeError
    | some d =>
      match cb d with
      | .error e => .error (.raised e)
      | .ok _ => .ok ([d], self)

/-- `MapStyleDatasetFullWrapper.__len__` (source lines 114-119):
`return self._dataset.get_total_num_seqs()`. -/
def __len__ (self : MapObj α ε) : Except (PyErr ε) (Nat × MapObj α ε) :=
  match self._dataset with
  | none => .error .attributeError
  | some d =>
    match d.get_total_num_seqs with
    | .error e => .error (.raised e)
    | .ok n => .ok (n, self)

/-- `MapStyleDatasetFullWrapper.__getitem__` (source lines 121-128): fetch
the sequence with `get_corpus_seq(index)` directly, return its features. -/
def __getitem__ (self : MapObj α ε) (index : Nat) : Except (PyErr ε) (List (String × α) × MapObj α ε) :=
  match self._dataset with
  | none => .error .attributeError
  | some d =>
    match d.get_corpus_seq index with
    | .error e => .error (.raised e)
    | .ok s => .ok (s.features, self)

end MapStyleDatasetFullWrapper

/-! ### Example datasets used for concrete evaluation -/

/-- A small, fully functional dataset: one data key, two sequences, all caps. -/
def dEx : Dataset Nat Unit where
  get_data_keys := .ok ["data"]
  is_less_than_num_seqs := fun i => .ok (decide (i < 2))
  load_seqs := fun _ _ => .ok ()
  get_data := fun i _ => .ok i
  num_seqs := .ok 2
  get_total_num_seqs := .ok 5
  have_corpus_seq_idx := true
  have_get_corpus_seq := true
  get_corpus_seq_idx := fun i => .ok (i + 3)
  get_corpus_seq := fun i => .ok ⟨[("data", i * 10)]⟩

/-- A dataset reporting neither corpus-indexing capability. -/
def dNoCaps : Dataset Nat Unit where
  get_data_keys := .ok []
  is_less_than_num_seqs := fun _ => .ok false
  load_seqs := fun _ _ => .ok ()
  get_data := fun _ _ => .ok 0
  num_seqs := .ok 0
  get_total_num_seqs := .ok 0
  have_corpus_seq_idx := false
  have_get_corpus_seq := false
  get_corpus_seq_idx := fun _ => .ok 0
  get_corpus_seq := fun _ => .ok ⟨[]⟩

/-- A dataset whose `get_data_keys` raises (exception 1). -/
def dErrKeys : Dataset Nat Nat where
  get_data_keys := .error 1
  is_less_than_num_seqs := fun _ => .ok false
  load_seqs := fun _ _ => .ok ()
  get_data := fun _ _ => .ok 0
  num_seqs := .ok 0
  get_total_num_seqs := .ok 0
  have_corpus_seq_idx := true
  have_get_corpus_seq := true
  get_corpus_seq_idx := fun _ => .ok 0
  get_corpus_seq := fun _ => .ok ⟨[]⟩

/-- A dataset whose loop-condition check raises (exception 2). -/
def dErrCheck : Dataset Nat Nat where
  get_data_keys := .ok ["k"]
  is_less_than_num_seqs := fun _ => .error 2
  load_seqs := fun _ _ => .ok ()
  get_data := fun _ _ => .ok 0
  num_seqs := .ok 0
  get_total_num_seqs := .ok 0
  have_corpus_seq_idx := true
  have_get_corpus_seq := true
  get_corpus_seq_idx := fun _ => .ok 0
  get_corpus_seq := fun _ => .ok ⟨[]⟩

/-- A dataset whose `load_seqs` raises (exception 3). -/
def dErrLoad : Dataset Nat Nat where
  get_data_keys := .ok ["k"]
  is_less_than_num_seqs := fun _ => .ok true
  load_seqs := fun _ _ => .error 3
  get_data := fun _ _ => .ok 0
  num_seqs := .ok 0
  get_total_num_seqs := .ok 0
  have_corpus_seq_idx := true
  have_get_corpus_seq := true
  get_corpus_seq_idx := fun _ => .ok 0
  get_corpus_seq := fun _ => .ok ⟨[]⟩

/-- A dataset whose `get_data` raises (exception 4). -/
def dErrGet : Dataset Nat Nat where
  get_data_keys := .ok ["k"]
  is_less_than_num_seqs := fun _ => .ok true
  load_seqs := fun _ _ => .ok ()
  get_data := fun _ _ => .error 4
  num_seqs := .ok 0
  get_total_num_seqs := .ok 0
  have_corpus_seq_idx := true
  have_get_corpus_seq := true
  get_corpus_seq_idx := fun _ => .ok 0
  get_corpus_seq := fun _ => .ok ⟨[]⟩

/-- A dataset whose length queries and corpus lookups raise (exceptions
5, 6, 7 and 8). -/
def dErrLen : Dataset Nat Nat where
  get_data_keys := .ok []
  is_less_than_num_seqs := fun _ => .ok false
  load_seqs := fun _ _ => .ok ()
  get_data := fun _ _ => .ok 0
  num_seqs := .error 5
  get_total_num_seqs := .error 6
  have_corpus_seq_idx := true
  have_get_corpus_seq := true
  get_corpus_seq_idx := fun _ => .error 7
  get_corpus_seq := fun _ => .error 8

/-- A dataset whose corpus-index mapping succeeds but whose sequence fetch
raises (exception 8). -/
def dErrSeq : Dataset Nat Nat where
  get_data_keys := .ok []
  is_less_than_num_seqs := fun _ => .ok false
  load_seqs := fun _ _ => .ok ()
  get_data := fun _ _ => .ok 0
  num_seqs := .ok 0
  get_total_num_seqs := .ok 0
  have_corpus_seq_idx := true
  have_get_corpus_seq := true
  get_corpus_seq_idx := fun i => .ok i
  get_corpus_seq := fun _ => .error 8

/-! ### Claims -/

/-- Claim C10: `IterableDatasetWrapper.__getitem__` raises for every instance
and every index, whatever the wrapped dataset holds: random access is
unsupported on the stream-form wrapper, and the failure does not depend on
the index being out of range. -/
theorem iterable_getitem_always_raises (α ε : Type) (self : IterObj α ε) (i : Nat) :
    IterableDatasetWrapper.__getitem__ self i =
      .error (.exception "IterableDatasetWrapper.__getitem__ not supported") := rfl

/-- Claim C4 (code-bug evidence): at a concrete dataset lacking both
capabilities, constructing either map-style wrapper does not fail the
capability assertion (it raises `TypeError` instead, the initializer body
being bound to the misspelled name `__int__` and hence never invoked);
the written initializer body, had it run, would have failed the assertion. -/
theorem capability_assert_unreachable_at_construction :
    MapStyleDatasetPerEpochWrapper.construct dNoCaps none = .error .typeError ∧
    MapStyleDatasetPerEpochWrapper.__int__ dNoCaps none = .error .assertionError ∧
    MapStyleDatasetFullWrapper.construct dNoCaps none = .error .typeError ∧
    MapStyleDatasetFullWrapper.__int__ dNoCaps none = .error .assertionError :=
  ⟨rfl, rfl, rfl, rfl⟩

/-- Claim C5: both map-style classes bind the name `__int__` and not
`__init__`, so object construction never invokes the written initializer:
constructing either wrapper with a dataset argument raises `TypeError` for
every dataset and callback, constructing without arguments leaves both
attributes unset, and on such a bare instance `reset`, `__len__` and
`__getitem__` all raise `AttributeError`. -/
theorem initializer_misnamed_int (α ε : Type) :
    (MapStyleDatasetPerEpochWrapper.methodNames.contains "__int__" = true ∧
     MapStyleDatasetPerEpochWrapper.methodNames.contains "__init__" = false ∧
     MapStyleDatasetFullWrapper.methodNames.contains "__int__" = true ∧
     MapStyleDatasetFullWrapper.methodNames.contains "__init__" = false) ∧
    (∀ (d : Dataset α ε) (cb : Option (ResetCallbackT α ε)),
      MapStyleDatasetPerEpochWrapper.construct d cb = .error .typeError) ∧
    (∀ (d : Dataset α ε) (cb : Option (ResetCallbackT α ε)),
      MapStyleDatasetFullWrapper.construct d cb = .error .typeError) ∧
    ((MapStyleDatasetPerEpochWrapper.constructNoArgs : Except (PyErr ε) (MapObj α ε)) =
      .ok ⟨none, none⟩) ∧
    ((MapStyleDatasetFullWrapper.constructNoArgs : Except (PyErr ε) (MapObj α ε)) =
      .ok ⟨none, none⟩) ∧
    (MapStyleDatasetPerEpochWrapper.reset (⟨none, none⟩ : MapObj α ε) = .error .attributeError) ∧
    (MapStyleDatasetPerEpochWrapper.__len__ (⟨none, none⟩ : MapObj α ε) = .error .attributeError) ∧
    (∀ i, MapStyleDatasetPerEpochWrapper.__getitem__ (⟨none, none⟩ : MapObj α ε) i =
      .error .attributeError) ∧
    (MapStyleDatasetFullWrapper.reset (⟨none, none⟩ : MapObj α ε) = .error .attributeError) ∧
    (MapStyleDatasetFullWrapper.__len__ (⟨none, none⟩ : MapObj α ε) = .error .attributeError) ∧
    (∀ i, MapStyleDatasetFullWrapper.__getitem__ (⟨none, none⟩ : MapObj α ε) i =
      .error .attributeError) :=
  ⟨⟨rfl, rfl, rfl, rfl⟩, fun _ _ => rfl, fun _ _ => rfl, rfl, rfl, rfl, rfl,
   fun _ => rfl, rfl, rfl, fun _ => rfl⟩

/-- Claim C3: on an instance whose `_dataset` attribute holds the wrapped
dataset, `MapStyleDatasetPerEpochWrapper.__len__` returns exactly the
dataset's `num_seqs` value and `MapStyleDatasetFullWrapper.__len__` returns
exactly the dataset's `get_total_num_seqs()` value, with no transformation
of either number. -/
theorem len_delegates_verbatim (α ε : Type) (self1 self2 : MapObj α ε) (d1 d2 : Dataset α ε)
    (h1 : self1._dataset = some d1) (h2 : self2._dataset = some d2) :
    (∀ n, d1.num_seqs = .ok n → MapStyleDatasetPerEpochWrapper.__len__ self1 = .ok (n, self1)) ∧
    (∀ n, d2.get_total_num_seqs = .ok n →
      MapStyleDatasetFullWrapper.__len__ self2 = .ok (n, self2)) := by
  constructor
  · intro n hn
    simp [MapStyleDatasetPerEpochWrapper.__len__, h1, hn]
  · intro n hn
    simp [MapStyleDatasetFullWrapper.__len__, h2, hn]

/-- Witness for C3 at a concrete dataset: the per-epoch wrapper reports the
dataset's `num_seqs` (2) and the full wrapper its `get_total_num_seqs` (5). -/
theorem len_delegates_verbatim_witness :
    MapStyleDatasetPerEpochWrapper.__len__ (⟨some dEx, none⟩ : MapObj Nat Unit) =
      .ok (2, ⟨some dEx, none⟩) ∧
    MapStyleDatasetFullWrapper.__len__ (⟨some dEx, none⟩ : MapObj Nat Unit) =
      .ok (5, ⟨some dEx, none⟩) :=
  ⟨(len_delegates_verbatim Nat Unit ⟨some dEx, none⟩ ⟨some dEx, none⟩ dEx dEx rfl rfl).1 2 rfl,
   (len_delegates_verbatim Nat Unit ⟨some dEx, none⟩ ⟨some dEx, none⟩ dEx dEx rfl rfl).2 5 rfl⟩

/-- Claim C2: on an instance holding dataset `d`,
`MapStyleDatasetPerEpochWrapper.__getitem__ i` returns the features of the
sequence obtained by first mapping `i` through `d.get_corpus_seq_idx` and
then calling `d.get_corpus_seq` on the result, whereas
`MapStyleDatasetFullWrapper.__getitem__ i` returns the features of
`d.get_corpus_seq i` applied to `i` directly, with no intermediate mapping. -/
theorem getitem_corpus_indexing (α ε : Type) (self1 self2 : MapObj α ε) (d1 d2 : Dataset α ε)
    (h1 : self1._dataset = some d1) (h2 : self2._dataset = some d2) :
    (∀ i c s, d1.get_corpus_seq_idx i = .ok c → d1.get_corpus_seq c = .ok s →
      MapStyleDatasetPerEpochWrapper.__getitem__ self1 i = .ok (s.features, self1)) ∧
    (∀ i s, d2.get_corpus_seq i = .ok s →
      MapStyleDatasetFullWrapper.__getitem__ self2 i = .ok (s.features, self2)) := by
  constructor
  · intro i c s hc hs
    simp [MapStyleDatasetPerEpochWrapper.__getitem__, h1, hc, hs]
  · intro i s hs
    simp [MapStyleDatasetFullWrapper.__getitem__, h2, hs]

/-- Witness for C2 at a concrete dataset: index 1 maps through
`get_corpus_seq_idx` to corpus index 4 in the per-epoch wrapper (features of
sequence 4), while the full wrapper reads sequence 1 directly. -/
theorem getitem_corpus_indexing_witness :
    MapStyleDatasetPerEpochWrapper.__getitem__ (⟨some dEx, none⟩ : MapObj Nat Unit) 1 =
      .ok ([("data", 40)], ⟨some dEx, none⟩) ∧
    MapStyleDatasetFullWrapper.__getitem__ (⟨some dEx, none⟩ : MapObj Nat Unit) 1 =
      .ok ([("data", 10)], ⟨some dEx, none⟩) :=
  ⟨(getitem_corpus_indexing Nat Unit ⟨some dEx, none⟩ ⟨some dEx, none⟩ dEx dEx rfl rfl).1
      1 4 ⟨[("data", 40)]⟩ rfl rfl,
   (getitem_corpus_indexing Nat Unit ⟨some dEx, none⟩ ⟨some dEx, none⟩ dEx dEx rfl rfl).2
      1 ⟨[("data", 10)]⟩ rfl⟩

/-- Claim C6: for each of the three wrappers, `reset` invokes the externally
supplied reset callback exactly once, passing it the wrapped dataset, when a
callback was supplied at construction; and performs no action at all (no
callback invocation, no failure) when the callback is absent. -/
theorem reset_invokes_callback_once (α ε : Type) :
    (∀ (d : Dataset α ε) (cb : ResetCallbackT α ε), cb d = .ok () →
      IterableDatasetWrapper.reset ⟨d, some cb⟩ = .ok ([d], ⟨d, some cb⟩)) ∧
    (∀ (d : Dataset α ε),
      IterableDatasetWrapper.reset (⟨d, none⟩ : IterObj α ε) = .ok ([], ⟨d, none⟩)) ∧
    (∀ (d : Dataset α ε) (cb : ResetCallbackT α ε), cb d = .ok () →
      MapStyleDatasetPerEpochWrapper.reset ⟨some d, some (some cb)⟩ =
        .ok ([d], ⟨some d, some (some cb)⟩)) ∧
    (∀ (d : Dataset α ε),
      MapStyleDatasetPerEpochWrapper.reset (⟨some d, some none⟩ : MapObj α ε) =
        .ok ([], ⟨some d, some none⟩)) ∧
    (∀ (d : Dataset α ε) (cb : ResetCallbackT α ε), cb d = .ok () →
      MapStyleDatasetFullWrapper.reset ⟨some d, some (some cb)⟩ =
        .ok ([d], ⟨some d, some (some cb)⟩)) ∧
    (∀ (d : Dataset α ε),
      MapStyleDatasetFullWrapper.reset (⟨some d, some none⟩ : MapObj α ε) =
        .ok ([], ⟨some d, some none⟩)) := by
  refine ⟨fun d cb h => ?_, fun d => rfl, fun d cb h => ?_, fun d => rfl,
    fun d cb h => ?_, fun d => rfl⟩
  · simp [IterableDatasetWrapper.reset, h]
  · simp [MapStyleDatasetPerEpochWrapper.reset, h]
  · simp [MapStyleDatasetFullWrapper.reset, h]

/-- Witness for C6: with a trivially succeeding callback, each wrapper's
`reset` records exactly one invocation, on the wrapped dataset; with no
callback, it records none. -/
theorem reset_invokes_callback_once_witness :
    IterableDatasetWrapper.reset (⟨dEx, some (fun _ => .ok ())⟩ : IterObj Nat Unit) =
      .ok ([dEx], ⟨dEx, some (fun _ => .ok ())⟩) ∧
    IterableDatasetWrapper.reset (⟨dEx, none⟩ : IterObj Nat Unit) = .ok ([], ⟨dEx, none⟩) ∧
    MapStyleDatasetPerEpochWrapper.reset
        (⟨some dEx, some (some (fun _ => .ok ()))⟩ : MapObj Nat Unit) =
      .ok ([dEx], ⟨some dEx, some (some (fun _ => .ok ()))⟩) ∧
    MapStyleDatasetFullWrapper.reset
        (⟨some dEx, some (some (fun _ => .ok ()))⟩ : MapObj Nat Unit) =
      .ok ([dEx], ⟨some dEx, some (some (fun _ => .ok ()))⟩) :=
  ⟨(reset_invokes_callback_once Nat Unit).1 dEx (fun _ => .ok ()) rfl,
   (reset_invokes_callback_once Nat Unit).2.1 dEx,
   (reset_invokes_callback_once Nat Unit).2.2.1 dEx (fun _ => .ok ()) rfl,
   (reset_invokes_callback_once Nat Unit).2.2.2.2.1 dEx (fun _ => .ok ()) rfl⟩

/-- Claim C8: no wrapper operation modifies the wrapper's own state: whenever
`reset`, `__len__`, `__getitem__` or `__iter__` returns, the post-state it
returns equals the pre-state (same dataset reference, same optional reset
callback), and a wrapper object holds no state besides its `_dataset` and
`_reset_callback` attributes. -/
theorem wrapper_ops_preserve_state (α ε : Type) :
    (∀ (self : IterObj α ε) r s', IterableDatasetWrapper.reset self = .ok (r, s') →
      s' = self) ∧
    (∀ (self : IterObj α ε) fuel, (IterableDatasetWrapper.__iter__ self fuel).2 = self) ∧
    (∀ (self : IterObj α ε) i r s', IterableDatasetWrapper.__getitem__ self i = .ok (r, s') →
      s' = self) ∧
    (∀ (self : MapObj α ε) r s', MapStyleDatasetPerEpochWrapper.reset self = .ok (r, s') →
      s' = self) ∧
    (∀ (self : MapObj α ε) n s', MapStyleDatasetPerEpochWrapper.__len__ self = .ok (n, s') →
      s' = self) ∧
    (∀ (self : MapObj α ε) i r s',
      MapStyleDatasetPerEpochWrapper.__getitem__ self i = .ok (r, s') → s' = self) ∧
    (∀ (self : MapObj α ε) r s', MapStyleDatasetFullWrapper.reset self = .ok (r, s') →
      s' = self) ∧
    (∀ (self : MapObj α ε) n s', MapStyleDatasetFullWrapper.__len__ self = .ok (n, s') →
      s' = self) ∧
    (∀ (self : MapObj α ε) i r s',
      MapStyleDatasetFullWrapper.__getitem__ self i = .ok (r, s') → s' = self) ∧
    (∀ (o : IterObj α ε), o = ⟨o._dataset, o._reset_callback⟩) ∧
    (∀ (o : MapObj α ε), o = ⟨o._dataset, o._reset_callback⟩) := by
  refine ⟨?_, fun self fuel => rfl, ?_, ?_, ?_, ?_, ?_, ?_, ?_, fun o => rfl, fun o => rfl⟩
  · intro self r s' h
    unfold IterableDatasetWrapper.reset at h
    split at h
    · injection h with h1; injection h1 with h2 h3; exact h3.symm
    · split at h
      · exact Except.noConfusion h
      · injection h with h1; injection h1 with h2 h3; exact h3.symm
  · intro self i r s' h
    exact Except.noConfusion h
  · intro self r s' h
    unfold MapStyleDatasetPerEpochWrapper.reset at h
    split at h
    · exact Except.noConfusion h
    · injection h with h1; injection h1 with h2 h3; exact h3.symm
    · split at h
      · exact Except.noConfusion h
      · split at h
        · exact Except.noConfusion h
        · injection h with h1; injection h1 with h2 h3; exact h3.symm
  · intro self n s' h
    unfold MapStyleDatasetPerEpochWrapper.__len__ at h
    split at h
    · exact Except.noConfusion h
    · split at h
      · exact Except.noConfusion h
      · injection h with h1; injection h1 with h2 h3; exact h3.symm
  · intro self i r s' h
    unfold MapStyleDatasetPerEpochWrapper.__getitem__ at h
    split at h
    · exact Except.noConfusion h
    · split at h
      · exact Except.noConfusion h
      · split at h
        · exact Except.noConfusion h
        · injection h with h1; injection h1 with h2 h3; exact h3.symm
  · intro self r s' h
    unfold MapStyleDatasetFullWrapper.reset at h
    split at h
    · exact Except.noConfusion h
    · injection h with h1; injection h1 with h2 h3; exact h3.symm
    · split at h
      · exact Except.noConfusion h
      · split at h
        · exact Except.noConfusion h
        · injection h with h1; injection h1 with h2 h3; exact h3.symm
  · intro self n s' h
    unfold MapStyleDatasetFullWrapper.__len__ at h
    split at h
    · exact Except.noConfusion h
    · split at h
      · exact Except.noConfusion h
      · injection h with h1; injection h1 with h2 h3; exact h3.symm
  · intro self i r s' h
    unfold MapStyleDatasetFullWrapper.__getitem__ at h
    split at h
    · exact Except.noConfusion h
    · split at h
      · exact Except.noConfusion h
      · injection h with h1; injection h1 with h2 h3; exact h3.symm

/-- Witness for C8: on a concrete instance, a succeeding `reset` and a
succeeding `__len__` return the instance unchanged. -/
theorem wrapper_ops_preserve_state_witness :
    ((⟨dEx, none⟩ : IterObj Nat Unit) = ⟨dEx, none⟩) ∧
    ((⟨some dEx, none⟩ : MapObj Nat Unit) = ⟨some dEx, none⟩) :=
  ⟨(wrapper_ops_preserve_state Nat Unit).1 ⟨dEx, none⟩ [] ⟨dEx, none⟩ rfl,
   (wrapper_ops_preserve_state Nat Unit).2.2.2.2.1 ⟨some dEx, none⟩ 2 ⟨some dEx, none⟩ rfl⟩

/-! ### Helper lemmas on iteration traces -/

theorem yields_call_cons (c : DsCall) (tl : List (IterEvent α)) :
    yields (.call c :: tl) = yields tl := rfl

theorem yields_yielded_cons (item : List (String × α)) (tl : List (IterEvent α)) :
    yields (.yielded item :: tl) = item :: yields tl := rfl

theorem yields_append (a b : List (IterEvent α)) :
    yields (a ++ b) = yields a ++ yields b :=
  List.filterMap_append a b _

theorem yields_map_call (l : List String) (g : String → DsCall) :
    yields ((l.map fun k => IterEvent.call (g k)) : List (IterEvent α)) = [] := by
  induction l with
  | nil => rfl
  | cons k ks ih => rw [List.map_cons, yields_call_cons]; exact ih

/-- When every `get_data` call succeeds, the dict comprehension returns the
association list pairing each data key, in order, with its value, and its
trace is one `get_data` call per key. -/
theorem buildDict_ok (d : Dataset α ε) (v : Nat → String → α)
    (hg : ∀ i k, d.get_data i k = .ok (v i k)) (i : Nat) (keys : List String) :
    buildDict d i keys =
      (keys.map fun k => .call (.get_data i k), .ok (keys.map fun k => (k, v i k))) := by
  induction keys with
  | nil => rfl
  | cons k ks ih => simp [buildDict, hg, ih]

/-- One successful pass of the while-loop body. -/
theorem iterLoop_step_ok (d : Dataset α ε) (keys : List String) (f i : Nat)
    (hi : d.is_less_than_num_seqs i = .ok true)
    (hload : d.load_seqs i (i + 1) = .ok ())
    (dtr : List (IterEvent α)) (item : List (String × α))
    (hdict : buildDict d i keys = (dtr, .ok item))
    (tr : List (IterEvent α)) (out : IterOutcome ε)
    (hrec : iterLoop d keys f (i + 1) = (tr, out)) :
    iterLoop d keys (f + 1) i =
      (.call (.is_less_than_num_seqs i) :: .call (.load_seqs i (i + 1)) ::
        (dtr ++ .yielded item :: tr), out) := by
  simp [iterLoop, hi, hload, hdict, hrec]

/-- The while-loop, started at index `i` with every dataset call succeeding,
the loop condition true for the `m` indices from `i` on and false at `i + m`,
and enough fuel: it yields exactly one dict per index `i, i+1, ..., i+m-1`
and finishes normally. -/
theorem iterLoop_ok (d : Dataset α ε) (keys : List String) (v : Nat → String → α)
    (hl : ∀ a b, d.load_seqs a b = .ok ())
    (hg : ∀ i k, d.get_data i k = .ok (v i k)) :
    ∀ (m i fuel : Nat), (∀ j, i ≤ j → j < i + m → d.is_less_than_num_seqs j = .ok true) →
      d.is_less_than_num_seqs (i + m) = .ok false → m < fuel →
      yields (iterLoop d keys fuel i).1 =
        (List.range' i m).map (fun j => keys.map fun k => (k, v j k)) ∧
      (iterLoop d keys fuel i).2 = .finished := by
  intro m
  induction m with
  | zero =>
    intro i fuel hlt hstop hfuel
    obtain ⟨f, rfl⟩ : ∃ f, fuel = f + 1 := ⟨fuel - 1, by omega⟩
    simp only [Nat.add_zero] at hstop
    simp [iterLoop, hstop, yields]
  | succ m ih =>
    intro i fuel hlt hstop hfuel
    obtain ⟨f, rfl⟩ : ∃ f, fuel = f + 1 := ⟨fuel - 1, by omega⟩
    have hi : d.is_less_than_num_seqs i = .ok true := hlt i le_rfl (by omega)
    obtain ⟨tr, out, hrec⟩ : ∃ tr out, iterLoop d keys f (i + 1) = (tr, out) := ⟨_, _, rfl⟩
    have hih := ih (i + 1) f (fun j hj1 hj2 => hlt j (by omega) (by omega))
      (by have heq : i + 1 + m = i + (m + 1) := by omega
          rw [heq]; exact hstop) (by omega)
    rw [hrec] at hih
    rw [iterLoop_step_ok d keys f i hi (hl i (i + 1)) _ _ (buildDict_ok d v hg i keys) tr out hrec]
    constructor
    · rw [yields_call_cons, yields_call_cons, yields_append, yields_map_call,
        yields_yielded_cons, List.range'_succ, List.map_cons]
      simp [hih.1]
    · exact hih.2

/-- Claim C1: iterating `IterableDatasetWrapper` over a dataset whose calls
all succeed yields one item per sequence index `i = 0, 1, 2, ...` for as
long as `is_less_than_num_seqs i` holds (given enough fuel for the loop to
reach the first failing index), each yielded item pairing exactly the data
keys returned by `get_data_keys` at the start of iteration, in order, with
the dataset's `get_data i k` at key `k`. -/
theorem iter_yields_one_item_per_seq_index (α ε : Type) (d : Dataset α ε)
    (cb : Option (ResetCallbackT α ε)) (keys : List String) (v : Nat → String → α) (n fuel : Nat)
    (hk : d.get_data_keys = .ok keys)
    (hl : ∀ a b, d.load_seqs a b = .ok ())
    (hg : ∀ i k, d.get_data i k = .ok (v i k))
    (hlt : ∀ j, j < n → d.is_less_than_num_seqs j = .ok true)
    (hstop : d.is_less_than_num_seqs n = .ok false)
    (hfuel : n < fuel) :
    yields ((IterableDatasetWrapper.__iter__ ⟨d, cb⟩ fuel).1).1 =
      (List.range n).map (fun i => keys.map fun k => (k, v i k)) ∧
    ((IterableDatasetWrapper.__iter__ ⟨d, cb⟩ fuel).1).2 = .finished ∧
    (∀ item ∈ yields ((IterableDatasetWrapper.__iter__ ⟨d, cb⟩ fuel).1).1,
      item.map Prod.fst = keys) := by
  obtain ⟨tr, out, hrec⟩ : ∃ tr out, iterLoop d keys fuel 0 = (tr, out) := ⟨_, _, rfl⟩
  have hloop := iterLoop_ok d keys v hl hg n 0 fuel (fun j hj1 hj2 => hlt j (by omega))
    (by simpa using hstop) hfuel
  rw [hrec] at hloop
  have hrun : (IterableDatasetWrapper.__iter__ (⟨d, cb⟩ : IterObj α ε) fuel).1 =
      (.call .get_data_keys :: tr, out) := by
    simp [IterableDatasetWrapper.__iter__, iterRun, hk, hrec]
  rw [hrun]
  have hy : yields (IterEvent.call .get_data_keys :: tr) = yields tr := yields_call_cons _ _
  refine ⟨?_, ?_, ?_⟩
  · rw [hy, hloop.1, List.range_eq_range' n]
  · exact hloop.2
  · intro item hmem
    rw [hy, hloop.1] at hmem
    obtain ⟨j, hj, rfl⟩ := List.mem_map.mp hmem
    rw [List.map_map]
    exact List.map_id keys

/-- Witness for C1 at the concrete dataset `dEx` (two sequences, one data
key): the run yields exactly the two dicts and finishes. -/
theorem iter_yields_one_item_per_seq_index_witness :
    yields ((IterableDatasetWrapper.__iter__ (⟨dEx, none⟩ : IterObj Nat Unit) 3).1).1 =
      [[("data", 0)], [("data", 1)]] ∧
    ((IterableDatasetWrapper.__iter__ (⟨dEx, none⟩ : IterObj Nat Unit) 3).1).2 = .finished := by
  have h := iter_yields_one_item_per_seq_index Nat Unit dEx none ["data"] (fun i _ => i) 2 3
    rfl (fun _ _ => rfl) (fun _ _ => rfl)
    (fun j hj => by simp only [dEx]; rw [decide_eq_true hj])
    rfl (by omega)
  exact ⟨h.1.trans (by rfl), h.2.1⟩

/-! ### Helper lemmas for the temporal claim -/

theorem loadedBeforeRead_get_cons (i : Nat) (key : String) (tl : List (IterEvent α)) (L : List Nat) :
    loadedBeforeRead (.call (.get_data i key) :: tl) L = (L.contains i && loadedBeforeRead tl L) := rfl

theorem loadedBeforeRead_load_cons (a b : Nat) (tl : List (IterEvent α)) (L : List Nat) :
    loadedBeforeRead (.call (.load_seqs a b) :: tl) L = loadedBeforeRead tl (a :: L) := rfl

theorem loadedBeforeRead_check_cons (i : Nat) (tl : List (IterEvent α)) (L : List Nat) :
    loadedBeforeRead (.call (.is_less_than_num_seqs i) :: tl) L = loadedBeforeRead tl L := rfl

theorem loadedBeforeRead_keys_cons (tl : List (IterEvent α)) (L : List Nat) :
    loadedBeforeRead (.call .get_data_keys :: tl) L = loadedBeforeRead tl L := rfl

theorem loadedBeforeRead_yield_cons (item : List (String × α)) (tl : List (IterEvent α)) (L : List Nat) :
    loadedBeforeRead (.yielded item :: tl) L = loadedBeforeRead tl L := rfl

theorem loadCalls_append (a b : List (IterEvent α)) :
    loadCalls (a ++ b) = loadCalls a ++ loadCalls b :=
  List.filterMap_append a b _

theorem loadCalls_load_cons (a b : Nat) (tl : List (IterEvent α)) :
    loadCalls (.call (.load_seqs a b) :: tl) = a :: loadCalls tl := rfl

theorem loadCalls_check_cons (i : Nat) (tl : List (IterEvent α)) :
    loadCalls (.call (.is_less_than_num_seqs i) :: tl) = loadCalls tl := rfl

theorem loadCalls_get_cons (i : Nat) (key : String) (tl : List (IterEvent α)) :
    loadCalls (.call (.get_data i key) :: tl) = loadCalls tl := rfl

theorem loadCalls_keys_cons (tl : List (IterEvent α)) :
    loadCalls (.call .get_data_keys :: tl) = loadCalls tl := rfl

theorem loadCalls_yield_cons (item : List (String × α)) (tl : List (IterEvent α)) :
    loadCalls (.yielded item :: tl) = loadCalls tl := rfl

/-- Every event the dict comprehension emits is a `get_data` call at the
current sequence index. -/
theorem buildDict_events (d : Dataset α ε) (i : Nat) (ks : List String) :
    ∀ e ∈ (buildDict d i ks).1, ∃ key, e = IterEvent.call (.get_data i key) := by
  induction ks with
  | nil => intro e he; simp [buildDict] at he
  | cons k ks ih =>
    intro e he
    rw [buildDict] at he
    rcases hgd : d.get_data i k with er | v
    · rw [hgd] at he
      simp at he
      exact ⟨k, he⟩
    · rw [hgd] at he
      obtain ⟨tr, res, hbd⟩ : ∃ tr res, buildDict d i ks = (tr, res) := ⟨_, _, rfl⟩
      have htr : ∀ e ∈ tr, ∃ key, e = IterEvent.call (.get_data i key) := by
        intro e1 he1
        exact ih e1 (by rw [hbd]; exact he1)
      rw [hbd] at he
      cases res with
      | error er =>
        simp at he
        rcases he with he | he
        · exact ⟨k, he⟩
        · exact htr e he
      | ok item =>
        simp at he
        rcases he with he | he
        · exact ⟨k, he⟩
        · exact htr e he

theorem yields_buildDict (d : Dataset α ε) (i : Nat) (ks : List String) :
    yields (buildDict d i ks).1 = [] := by
  rw [yields]
  rw [List.filterMap_eq_nil_iff]
  intro e he
  obtain ⟨key, rfl⟩ := buildDict_events d i ks e he
  rfl

theorem loadCalls_buildDict (d : Dataset α ε) (i : Nat) (ks : List String) :
    loadCalls (buildDict d i ks).1 = [] := by
  rw [loadCalls]
  rw [List.filterMap_eq_nil_iff]
  intro e he
  obtain ⟨key, rfl⟩ := buildDict_events d i ks e he
  rfl

theorem no_load_in_buildDict (d : Dataset α ε) (i a b : Nat) (ks : List String) :
    IterEvent.call (.load_seqs a b) ∉ (buildDict d i ks).1 := by
  intro hmem
  obtain ⟨key, hk⟩ := buildDict_events d i ks _ hmem
  simp at hk

/-- Crossing the dict-comprehension trace does not change `loadedBeforeRead`
when the current index is already recorded as loaded. -/
theorem loadedBeforeRead_buildDict (d : Dataset α ε) (i : Nat) (ks : List String)
    (rest : List (IterEvent α)) (L : List Nat) (hi : L.contains i = true) :
    loadedBeforeRead ((buildDict d i ks).1 ++ rest) L = loadedBeforeRead rest L := by
  induction ks with
  | nil => rfl
  | cons k ks ih =>
    rw [buildDict]
    rcases hgd : d.get_data i k with er | v
    · show loadedBeforeRead (.call (.get_data i k) :: rest) L = loadedBeforeRead rest L
      rw [loadedBeforeRead_get_cons, hi, Bool.true_and]
    · obtain ⟨tr, res, hbd⟩ : ∃ tr res, buildDict d i ks = (tr, res) := ⟨_, _, rfl⟩
      have htr : loadedBeforeRead (tr ++ rest) L = loadedBeforeRead rest L := by
        have h1 := ih
        rw [hbd] at h1
        exact h1
      rw [hbd]
      cases res with
      | error er =>
        show loadedBeforeRead (.call (.get_data i k) :: (tr ++ rest)) L = loadedBeforeRead rest L
        rw [loadedBeforeRead_get_cons, hi, Bool.true_and, htr]
      | ok item =>
        show loadedBeforeRead (.call (.get_data i k) :: (tr ++ rest)) L = loadedBeforeRead rest L
        rw [loadedBeforeRead_get_cons, hi, Bool.true_and, htr]

/-- Along any run of the while-loop, a `get_data` call at index `j` only
happens after a `load_seqs` call with first argument `j` (or with `j` in the
initially-loaded list). -/
theorem iterLoop_loadedBeforeRead (d : Dataset α ε) (keys : List String) :
    ∀ (fuel i : Nat) (L : List Nat), loadedBeforeRead (iterLoop d keys fuel i).1 L = true := by
  intro fuel
  induction fuel with
  | zero => intro i L; rfl
  | succ f ih =>
    intro i L
    rw [iterLoop]
    rcases hc : d.is_less_than_num_seqs i with er | b
    · rfl
    · cases b with
      | false => rfl
      | true =>
        rcases hld : d.load_seqs i (i + 1) with er | u
        · rfl
        · obtain ⟨dtr, res, hbd⟩ : ∃ dtr res, buildDict d i keys = (dtr, res) := ⟨_, _, rfl⟩
          rw [hbd]
          cases res with
          | error er =>
            show loadedBeforeRead (.call (.is_less_than_num_seqs i) ::
              .call (.load_seqs i (i + 1)) :: dtr) L = true
            rw [loadedBeforeRead_check_cons, loadedBeforeRead_load_cons]
            have h1 := loadedBeforeRead_buildDict d i keys [] (i :: L) (by simp)
            simp only [hbd, List.append_nil] at h1
            exact h1
          | ok item =>
            obtain ⟨tr, out, hrec⟩ : ∃ tr out, iterLoop d keys f (i + 1) = (tr, out) := ⟨_, _, rfl⟩
            rw [hrec]
            show loadedBeforeRead (.call (.is_less_than_num_seqs i) ::
              .call (.load_seqs i (i + 1)) :: (dtr ++ .yielded item :: tr)) L = true
            rw [loadedBeforeRead_check_cons, loadedBeforeRead_load_cons]
            have h1 := loadedBeforeRead_buildDict d i keys (.yielded item :: tr) (i :: L) (by simp)
            simp only [hbd] at h1
            rw [h1, loadedBeforeRead_yield_cons]
            have h2 := ih (i + 1) (i :: L)
            simp only [hrec] at h2
            exact h2

/-- Every `load_seqs` call the while-loop makes covers exactly the
one-element range from its first argument. -/
theorem iterLoop_loads_unit (d : Dataset α ε) (keys : List String) :
    ∀ (fuel i a b : Nat),
      IterEvent.call (.load_seqs a b) ∈ (iterLoop d keys fuel i).1 → b = a + 1 := by
  intro fuel
  induction fuel with
  | zero => intro i a b hmem; simp [iterLoop] at hmem
  | succ f ih =>
    intro i a b hmem
    rw [iterLoop] at hmem
    rcases hc : d.is_less_than_num_seqs i with er | bb
    · rw [hc] at hmem; simp at hmem
    · rw [hc] at hmem
      cases bb with
      | false => simp at hmem
      | true =>
        rcases hld : d.load_seqs i (i + 1) with er | u
        · rw [hld] at hmem
          simp only [List.mem_cons, List.not_mem_nil, or_false] at hmem
          rcases hmem with h | h
          · injection h with h2; injection h2
          · injection h with h2; injection h2 with h3 h4; omega
        · rw [hld] at hmem
          obtain ⟨dtr, res, hbd⟩ : ∃ dtr res, buildDict d i keys = (dtr, res) := ⟨_, _, rfl⟩
          rw [hbd] at hmem
          cases res with
          | error er =>
            simp only [List.mem_cons] at hmem
            rcases hmem with h | h | h
            · injection h with h2; injection h2
            · injection h with h2; injection h2 with h3 h4; omega
            · have hno := no_load_in_buildDict d i a b keys
              simp only [hbd] at hno
              exact absurd h hno
          | ok item =>
            obtain ⟨tr, out, hrec⟩ : ∃ tr out, iterLoop d keys f (i + 1) = (tr, out) := ⟨_, _, rfl⟩
            rw [hrec] at hmem
            simp only [List.mem_cons, List.mem_append] at hmem
            rcases hmem with h | h | (h | (h | h))
            · injection h with h2; injection h2
            · injection h with h2; injection h2 with h3 h4; omega
            · have hno := no_load_in_buildDict d i a b keys
              simp only [hbd] at hno
              exact absurd h hno
            · injection h
            · have := ih (i + 1) a b
              simp only [hrec] at this
              exact this h

/-- The first components of the `load_seqs` calls of a run of the while-loop
started at `i` form a contiguous ascending range from `i`. -/
theorem iterLoop_loadCalls (d : Dataset α ε) (keys : List String) :
    ∀ (fuel i : Nat), ∃ m, loadCalls (iterLoop d keys fuel i).1 = List.range' i m := by
  intro fuel
  induction fuel with
  | zero => intro i; exact ⟨0, rfl⟩
  | succ f ih =>
    intro i
    rw [iterLoop]
    rcases hc : d.is_less_than_num_seqs i with er | b
    · exact ⟨0, rfl⟩
    · cases b with
      | false => exact ⟨0, rfl⟩
      | true =>
        rcases hld : d.load_seqs i (i + 1) with er | u
        · exact ⟨1, rfl⟩
        · obtain ⟨dtr, res, hbd⟩ : ∃ dtr res, buildDict d i keys = (dtr, res) := ⟨_, _, rfl⟩
          rw [hbd]
          cases res with
          | error er =>
            refine ⟨1, ?_⟩
            show loadCalls (.call (.is_less_than_num_seqs i) ::
              .call (.load_seqs i (i + 1)) :: dtr) = List.range' i 1
            rw [loadCalls_check_cons, loadCalls_load_cons]
            have h1 := loadCalls_buildDict d i keys
            simp only [hbd] at h1
            rw [h1]
            rfl
          | ok item =>
            obtain ⟨tr, out, hrec⟩ : ∃ tr out, iterLoop d keys f (i + 1) = (tr, out) := ⟨_, _, rfl⟩
            rw [hrec]
            obtain ⟨m, hm⟩ := ih (i + 1)
            simp only [hrec] at hm
            refine ⟨m + 1, ?_⟩
            show loadCalls (.call (.is_less_than_num_seqs i) ::
              .call (.load_seqs i (i + 1)) :: (dtr ++ .yielded item :: tr)) = List.range' i (m + 1)
            rw [loadCalls_check_cons, loadCalls_load_cons, loadCalls_append]
            have h1 := loadCalls_buildDict d i keys
            simp only [hbd] at h1
            rw [h1, loadCalls_yield_cons, List.nil_append, List.range'_succ, hm]

/-- If the while-loop finishes normally, it stops exactly at the first index
whose loop condition is false: the condition is false right after the yielded
items and true at every index from the start of the run up to there. -/
theorem iterLoop_finished (d : Dataset α ε) (keys : List String) :
    ∀ (fuel i : Nat), (iterLoop d keys fuel i).2 = .finished →
      d.is_less_than_num_seqs (i + (yields (iterLoop d keys fuel i).1).length) = .ok false ∧
      (∀ j, i ≤ j → j < i + (yields (iterLoop d keys fuel i).1).length →
        d.is_less_than_num_seqs j = .ok true) := by
  intro fuel
  induction fuel with
  | zero => intro i h; simp [iterLoop] at h
  | succ f ih =>
    intro i h
    rcases hc : d.is_less_than_num_seqs i with er | b
    · have heq : iterLoop d keys (f + 1) i =
          ([.call (.is_less_than_num_seqs i)], .errored er) := by
        rw [iterLoop, hc]
      simp [heq] at h
    · cases b with
      | false =>
        have heq : iterLoop d keys (f + 1) i =
            ([.call (.is_less_than_num_seqs i)], .finished) := by
          rw [iterLoop, hc]
        simp only [heq]
        constructor
        · simpa [yields] using hc
        · intro j hj1 hj2
          simp [yields] at hj2
          omega
      | true =>
        rcases hld : d.load_seqs i (i + 1) with er | ⟨⟩
        · have heq : iterLoop d keys (f + 1) i =
              ([.call (.is_less_than_num_seqs i), .call (.load_seqs i (i + 1))], .errored er) := by
            rw [iterLoop, hc, hld]
          simp [heq] at h
        · obtain ⟨dtr, res, hbd⟩ : ∃ dtr res, buildDict d i keys = (dtr, res) := ⟨_, _, rfl⟩
          cases res with
          | error er =>
            have heq : iterLoop d keys (f + 1) i =
                (.call (.is_less_than_num_seqs i) :: .call (.load_seqs i (i + 1)) :: dtr,
                  .errored er) := by
              rw [iterLoop, hc, hld, hbd]
            simp [heq] at h
          | ok item =>
            obtain ⟨tr, out, hrec⟩ : ∃ tr out, iterLoop d keys f (i + 1) = (tr, out) := ⟨_, _, rfl⟩
            have heq := iterLoop_step_ok d keys f i hc hld dtr item hbd tr out hrec
            simp only [heq] at h ⊢
            have h3 := yields_buildDict d i keys
            simp only [hbd] at h3
            have hy : yields (IterEvent.call (DsCall.is_less_than_num_seqs i) ::
                IterEvent.call (DsCall.load_seqs i (i + 1)) ::
                (dtr ++ IterEvent.yielded item :: tr)) = item :: yields tr := by
              rw [yields_call_cons, yields_call_cons, yields_append, h3,
                yields_yielded_cons, List.nil_append]
            have hih := ih (i + 1)
            simp only [hrec] at hih
            obtain ⟨h1, h2⟩ := hih h
            simp only [hy, List.length_cons]
            constructor
            · have harith : i + ((yields tr).length + 1) = i + 1 + (yields tr).length := by omega
              rw [harith]
              exact h1
            · intro j hj1 hj2
              rcases Nat.lt_or_ge j (i + 1) with hj | hj
              · have hji : j = i := by omega
                rw [hji]
                exact hc
              · exact h2 j hj (by omega)

/-- Claim C7: during any run of `IterableDatasetWrapper.__iter__` (any
dataset, any fuel), (i) data for a sequence index is never read before the
load-range operation has been called for that index, (ii) every load-range
call covers exactly the one-element range from its index to its successor,
(iii) the sequence indices loaded form the strictly increasing sequence
0, 1, 2, ..., and (iv) when iteration stops normally, it stops exactly at
the first index where the "has more" predicate fails: the predicate is true
at every earlier index and false there. -/
theorem iter_load_before_read_monotone (α ε : Type) (d : Dataset α ε)
    (cb : Option (ResetCallbackT α ε)) (fuel : Nat) :
    loadedBeforeRead ((IterableDatasetWrapper.__iter__ ⟨d, cb⟩ fuel).1).1 [] = true ∧
    (∀ a b, IterEvent.call (.load_seqs a b) ∈ ((IterableDatasetWrapper.__iter__ ⟨d, cb⟩ fuel).1).1 →
      b = a + 1) ∧
    (∃ m, loadCalls ((IterableDatasetWrapper.__iter__ ⟨d, cb⟩ fuel).1).1 = List.range m) ∧
    (((IterableDatasetWrapper.__iter__ ⟨d, cb⟩ fuel).1).2 = .finished →
      d.is_less_than_num_seqs
          (yields ((IterableDatasetWrapper.__iter__ ⟨d, cb⟩ fuel).1).1).length = .ok false ∧
      (∀ j, j < (yields ((IterableDatasetWrapper.__iter__ ⟨d, cb⟩ fuel).1).1).length →
        d.is_less_than_num_seqs j = .ok true)) := by
  have hiter : (IterableDatasetWrapper.__iter__ (⟨d, cb⟩ : IterObj α ε) fuel).1 =
      iterRun d fuel := rfl
  rw [hiter]
  rcases hk : d.get_data_keys with er | keys
  · have heq : iterRun d fuel = ([.call .get_data_keys], .errored er) := by
      unfold iterRun; rw [hk]
    simp only [heq]
    refine ⟨rfl, ?_, ⟨0, rfl⟩, ?_⟩
    · intro a b hmem
      simp at hmem
    · intro h
      simp at h
  · obtain ⟨tr, out, hrec⟩ : ∃ tr out, iterLoop d keys fuel 0 = (tr, out) := ⟨_, _, rfl⟩
    have heq : iterRun d fuel = (.call .get_data_keys :: tr, out) := by
      simp [iterRun, hk, hrec]
    simp only [heq]
    refine ⟨?_, ?_, ?_, ?_⟩
    · rw [loadedBeforeRead_keys_cons]
      have h1 := iterLoop_loadedBeforeRead d keys fuel 0 []
      simp only [hrec] at h1
      exact h1
    · intro a b hmem
      simp only [List.mem_cons] at hmem
      rcases hmem with h | h
      · injection h with h2; injection h2
      · have h1 := iterLoop_loads_unit d keys fuel 0 a b
        simp only [hrec] at h1
        exact h1 h
    · rw [loadCalls_keys_cons]
      obtain ⟨m, hm⟩ := iterLoop_loadCalls d keys fuel 0
      simp only [hrec] at hm
      exact ⟨m, by rw [hm, List.range_eq_range']⟩
    · intro h
      have hfin := iterLoop_finished d keys fuel 0
      simp only [hrec] at hfin
      obtain ⟨h1, h2⟩ := hfin h
      rw [yields_call_cons]
      constructor
      · simpa using h1
      · intro j hj
        exact h2 j (Nat.zero_le j) (by omega)

/-- Witness for C7 at the concrete dataset `dEx` with fuel 3: the run
satisfies the load-before-read discipline, and it finishes, stopping at the
first index (2) where the predicate fails. -/
theorem iter_load_before_read_monotone_witness :
    loadedBeforeRead ((IterableDatasetWrapper.__iter__ (⟨dEx, none⟩ : IterObj Nat Unit) 3).1).1 []
      = true ∧
    dEx.is_less_than_num_seqs
      (yields ((IterableDatasetWrapper.__iter__ (⟨dEx, none⟩ : IterObj Nat Unit) 3).1).1).length
      = .ok false := by
  have h := iter_load_before_read_monotone Nat Unit dEx none 3
  exact ⟨h.1, (h.2.2.2 rfl).1⟩

/-- Claim C9: every wrapper operation that calls into the wrapped dataset
(length query, iteration, random-access lookup, reset callback) propagates a
failure raised by the underlying call unchanged: the wrappers catch,
transform, or suppress no exception.  Iteration failures surface as the
run's outcome carrying the raised exception itself; method failures surface
as the dataset's exception propagated as-is. -/
theorem failures_propagate_unchanged (α ε : Type) :
    (∀ (d : Dataset α ε) (cb : Option (ResetCallbackT α ε)) (fuel : Nat) (e : ε),
      d.get_data_keys = .error e →
      ((IterableDatasetWrapper.__iter__ ⟨d, cb⟩ fuel).1).2 = .errored e) ∧
    (∀ (d : Dataset α ε) (cb : Option (ResetCallbackT α ε)) (fuel : Nat) (keys : List String)
      (e : ε), d.get_data_keys = .ok keys → d.is_less_than_num_seqs 0 = .error e →
      ((IterableDatasetWrapper.__iter__ ⟨d, cb⟩ (fuel + 1)).1).2 = .errored e) ∧
    (∀ (d : Dataset α ε) (cb : Option (ResetCallbackT α ε)) (fuel : Nat) (keys : List String)
      (e : ε), d.get_data_keys = .ok keys → d.is_less_than_num_seqs 0 = .ok true →
      d.load_seqs 0 1 = .error e →
      ((IterableDatasetWrapper.__iter__ ⟨d, cb⟩ (fuel + 1)).1).2 = .errored e) ∧
    (∀ (d : Dataset α ε) (cb : Option (ResetCallbackT α ε)) (fuel : Nat) (k : String)
      (ks : List String) (e : ε), d.get_data_keys = .ok (k :: ks) →
      d.is_less_than_num_seqs 0 = .ok true → d.load_seqs 0 1 = .ok () →
      d.get_data 0 k = .error e →
      ((IterableDatasetWrapper.__iter__ ⟨d, cb⟩ (fuel + 1)).1).2 = .errored e) ∧
    (∀ (self : MapObj α ε) (d : Dataset α ε) (e : ε), self._dataset = some d →
      d.num_seqs = .error e →
      MapStyleDatasetPerEpochWrapper.__len__ self = .error (.raised e)) ∧
    (∀ (self : MapObj α ε) (d : Dataset α ε) (e : ε), self._dataset = some d →
      d.get_total_num_seqs = .error e →
      MapStyleDatasetFullWrapper.__len__ self = .error (.raised e)) ∧
    (∀ (self : MapObj α ε) (d : Dataset α ε) (i : Nat) (e : ε), self._dataset = some d →
      d.get_corpus_seq_idx i = .error e →
      MapStyleDatasetPerEpochWrapper.__getitem__ self i = .error (.raised e)) ∧
    (∀ (self : MapObj α ε) (d : Dataset α ε) (i c : Nat) (e : ε), self._dataset = some d →
      d.get_corpus_seq_idx i = .ok c → d.get_corpus_seq c = .error e →
      MapStyleDatasetPerEpochWrapper.__getitem__ self i = .error (.raised e)) ∧
    (∀ (self : MapObj α ε) (d : Dataset α ε) (i : Nat) (e : ε), self._dataset = some d →
      d.get_corpus_seq i = .error e →
      MapStyleDatasetFullWrapper.__getitem__ self i = .error (.raised e)) ∧
    (∀ (d : Dataset α ε) (cb : ResetCallbackT α ε) (e : ε), cb d = .error e →
      IterableDatasetWrapper.reset ⟨d, some cb⟩ = .error (.raised e)) ∧
    (∀ (d : Dataset α ε) (cb : ResetCallbackT α ε) (e : ε), cb d = .error e →
      MapStyleDatasetPerEpochWrapper.reset ⟨some d, some (some cb)⟩ = .error (.raised e)) ∧
    (∀ (d : Dataset α ε) (cb : ResetCallbackT α ε) (e : ε), cb d = .error e →
      MapStyleDatasetFullWrapper.reset ⟨some d, some (some cb)⟩ = .error (.raised e)) := by
  refine ⟨?_, ?_, ?_, ?_, ?_, ?_, ?_, ?_, ?_, ?_, ?_, ?_⟩
  · intro d cb fuel e h
    simp [IterableDatasetWrapper.__iter__, iterRun, h]
  · intro d cb fuel keys e hk h0
    simp [IterableDatasetWrapper.__iter__, iterRun, hk, iterLoop, h0]
  · intro d cb fuel keys e hk h0 hload
    simp [IterableDatasetWrapper.__iter__, iterRun, hk, iterLoop, h0, hload]
  · intro d cb fuel k ks e hk h0 hload hg
    simp [IterableDatasetWrapper.__iter__, iterRun, hk, iterLoop, h0, hload, buildDict, hg]
  · intro self d e hd he
    simp [MapStyleDatasetPerEpochWrapper.__len__, hd, he]
  · intro self d e hd he
    simp [MapStyleDatasetFullWrapper.__len__, hd, he]
  · intro self d i e hd he
    simp [MapStyleDatasetPerEpochWrapper.__getitem__, hd, he]
  · intro self d i c e hd hc he
    simp [MapStyleDatasetPerEpochWrapper.__getitem__, hd, hc, he]
  · intro self d i e hd he
    simp [MapStyleDatasetFullWrapper.__getitem__, hd, he]
  · intro d cb e h
    simp [IterableDatasetWrapper.reset, h]
  · intro d cb e h
    simp [MapStyleDatasetPerEpochWrapper.reset, h]
  · intro d cb e h
    simp [MapStyleDatasetFullWrapper.reset, h]

/-- Witness for C9 at concrete raising datasets: every failure surfaces with
the raised exception value intact. -/
theorem failures_propagate_unchanged_witness :
    ((IterableDatasetWrapper.__iter__ (⟨dErrKeys, none⟩ : IterObj Nat Nat) 1).1).2 =
      .errored 1 ∧
    ((IterableDatasetWrapper.__iter__ (⟨dErrCheck, none⟩ : IterObj Nat Nat) 1).1).2 =
      .errored 2 ∧
    ((IterableDatasetWrapper.__iter__ (⟨dErrLoad, none⟩ : IterObj Nat Nat) 1).1).2 =
      .errored 3 ∧
    ((IterableDatasetWrapper.__iter__ (⟨dErrGet, none⟩ : IterObj Nat Nat) 1).1).2 =
      .errored 4 ∧
    MapStyleDatasetPerEpochWrapper.__len__ (⟨some dErrLen, none⟩ : MapObj Nat Nat) =
      .error (.raised 5) ∧
    MapStyleDatasetFullWrapper.__len__ (⟨some dErrLen, none⟩ : MapObj Nat Nat) =
      .error (.raised 6) ∧
    MapStyleDatasetPerEpochWrapper.__getitem__ (⟨some dErrLen, none⟩ : MapObj Nat Nat) 0 =
      .error (.raised 7) ∧
    MapStyleDatasetPerEpochWrapper.__getitem__ (⟨some dErrSeq, none⟩ : MapObj Nat Nat) 0 =
      .error (.raised 8) ∧
    MapStyleDatasetFullWrapper.__getitem__ (⟨some dErrLen, none⟩ : MapObj Nat Nat) 0 =
      .error (.raised 8) ∧
    IterableDatasetWrapper.reset (⟨dErrLen, some (fun _ => .error 9)⟩ : IterObj Nat Nat) =
      .error (.raised 9) ∧
    MapStyleDatasetPerEpochWrapper.reset
        (⟨some dErrLen, some (some (fun _ => .error 9))⟩ : MapObj Nat Nat) =
      .error (.raised 9) ∧
    MapStyleDatasetFullWrapper.reset
        (⟨some dErrLen, some (some (fun _ => .error 9))⟩ : MapObj Nat Nat) =
      .error (.raised 9) :=
  ⟨(failures_propagate_unchanged Nat Nat).1 dErrKeys none 1 1 rfl,
   (failures_propagate_unchanged Nat Nat).2.1 dErrCheck none 0 ["k"] 2 rfl rfl,
   (failures_propagate_unchanged Nat Nat).2.2.1 dErrLoad none 0 ["k"] 3 rfl rfl rfl,
   (failures_propagate_unchanged Nat Nat).2.2.2.1 dErrGet none 0 "k" [] 4 rfl rfl rfl rfl,
   (failures_propagate_unchanged Nat Nat).2.2.2.2.1 ⟨some dErrLen, none⟩ dErrLen 5 rfl rfl,
   (failures_propagate_unchanged Nat Nat).2.2.2.2.2.1 ⟨some dErrLen, none⟩ dErrLen 6 rfl rfl,
   (failures_propagate_unchanged Nat Nat).2.2.2.2.2.2.1 ⟨some dErrLen, none⟩ dErrLen 0 7 rfl rfl,
   (failures_propagate_unchanged Nat Nat).2.2.2.2.2.2.2.1 ⟨some dErrSeq, none⟩ dErrSeq 0 0 8
     rfl rfl rfl,
   (failures_propagate_unchanged Nat Nat).2.2.2.2.2.2.2.2.1 ⟨some dErrLen, none⟩ dErrLen 0 8
     rfl rfl,
   (failures_propagate_unchanged Nat Nat).2.2.2.2.2.2.2.2.2.1 dErrLen (fun _ => .error 9) 9 rfl,
   (failures_propagate_unchanged Nat Nat).2.2.2.2.2.2.2.2.2.2.1 dErrLen (fun _ => .error 9) 9
     rfl,
   (failures_propagate_unchanged Nat Nat).2.2.2.2.2.2.2.2.2.2.2 dErrLen (fun _ => .error 9) 9
     rfl⟩
